import Mathlib

/-!
Shallow embedding of the smart-travel-planner recommendation and
feature-engineering core (modules/ml_nlp/recommendation_system.py and
modules/ml_nlp/feature_engineering.py).

A pandas DataFrame is modelled as a list of rows plus the list of column
names; a numeric cell is `Option Rat`, with `none` standing for a missing
value (NaN).  Floating-point numbers are modelled by exact rationals
(reals where square roots are required); non-finite float results (NaN,
produced by the 0/0 divisions reachable in the source) are modelled by
`none`.
-/

namespace Travel

/-- One city row: the identifier columns used by the core plus the numeric
cells, stored as an association list from column name to value.  A column
name absent from the association list is a missing value (NaN). -/
structure Row where
  city : String
  country : String
  region : String
  cells : List (String × Rat)
deriving DecidableEq

/-- First cell stored under a column name. -/
def lookupCell : List (String × Rat) → String → Option Rat
  | [], _ => none
  | kv :: rest, c => if kv.1 = c then some kv.2 else lookupCell rest c

/-- Numeric cell lookup: `none` models NaN / missing. -/
def Row.get (r : Row) (c : String) : Option Rat :=
  lookupCell r.cells c

/-- A DataFrame: the set of columns present in the table and the rows. -/
structure DataFrame where
  cols : List String
  rows : List Row
deriving DecidableEq

/-! NaN-propagating arithmetic on `Option Rat`, mirroring IEEE float
semantics for the operations the source performs. -/

/-- Lift a binary operation; NaN propagates. -/
def nf2 (f : Rat → Rat → Rat) : Option Rat → Option Rat → Option Rat
  | some a, some b => some (f a b)
  | _, _ => none

def nadd : Option Rat → Option Rat → Option Rat := nf2 (· + ·)

def nsub : Option Rat → Option Rat → Option Rat := nf2 (· - ·)

def nmul : Option Rat → Option Rat → Option Rat := nf2 (· * ·)

/-- Division. A zero divisor yields `none`: at every division site of the
source a zero divisor comes with a zero dividend, so the float result is
0/0 = NaN. -/
def ndiv : Option Rat → Option Rat → Option Rat
  | some a, some b => if b = 0 then none else some (a / b)
  | _, _ => none

def nabs : Option Rat → Option Rat
  | some a => some |a|
  | none => none

/-- Series.clip(0, 1): NaN stays NaN. -/
def nclip01 : Option Rat → Option Rat
  | some a => some (min 1 (max 0 a))
  | none => none

/-- Series.clip(lower=0): NaN stays NaN. -/
def nclipLower0 : Option Rat → Option Rat
  | some a => some (max 0 a)
  | none => none

/-- Values of a column after dropping NaN entries. -/
def someValues (l : List (Option Rat)) : List Rat :=
  l.filterMap id

/-- Mean as pandas computes it (skipna=True); NaN when no value remains. -/
def pdMean (l : List (Option Rat)) : Option Rat :=
  match someValues l with
  | [] => none
  | x :: xs => some ((x :: xs).sum / ((x :: xs).length : Rat))

/-- Maximum as pandas computes it (skipna=True); NaN when no value remains. -/
def pdMax (l : List (Option Rat)) : Option Rat :=
  match someValues l with
  | [] => none
  | x :: xs => some (xs.foldl max x)

/-- Minimum as pandas computes it (skipna=True); NaN when no value remains. -/
def pdMin (l : List (Option Rat)) : Option Rat :=
  match someValues l with
  | [] => none
  | x :: xs => some (xs.foldl min x)

/-! Embedding of recommend_cities_by_preferences
(recommendation_system.py lines 60-172). -/

/-- The user preference record.  A `none` / empty-list field models an
absent dictionary key; the defaults mirror the dict.get defaults of the
source. -/
structure Preferences where
  selected_activities : List String := []
  budget_level : Option String := none
  activity_threshold : Rat := 0
  special_filters : List String := []
  avg_temp_preference : Option String := none
  exclude_cities : List String := []
  duration_col : Option String := none
deriving DecidableEq

/-- budget_mapping.get(budget_level, 2). -/
def budgetMapping (b : String) : Rat :=
  if b = "Budget" then 1 else if b = "Mid-range" then 2 else if b = "Luxury" then 3 else 2

/-- Selected activity columns that exist in the table. -/
def activityCols (df : DataFrame) (sel : List String) : List String :=
  sel.filter (· ∈ df.cols)

/-- Row-wise mean of the selected activity columns (mean(axis=1), skipna). -/
def rowActivityMean (r : Row) (cols : List String) : Option Rat :=
  pdMean (cols.map r.get)

/-- Step 1 of the scorer: activity term, weight 0.4, normalized by the
column maximum of the per-row activity means when that maximum is
positive. -/
def stepActivity (df : DataFrame) (p : Preferences) (r : Row) (s : Option Rat) : Option Rat :=
  if p.selected_activities ≠ [] ∧ activityCols df p.selected_activities ≠ [] then
    let cols := activityCols df p.selected_activities
    let ascore := rowActivityMean r cols
    let ascoreN :=
      match pdMax (df.rows.map (fun r' => rowActivityMean r' cols)) with
      | some m => if 0 < m then ndiv ascore (some m) else ascore
      | none => ascore
    nadd s (nmul ascoreN (some (2/5)))
  else s

/-- Step 2: budget term, weight 0.2; 1.0 on exact tier match, 0.5 on an
adjacent tier, otherwise 0 (a missing budget cell matches nothing). -/
def stepBudget (p : Preferences) (r : Row) (s : Option Rat) : Option Rat :=
  match p.budget_level with
  | none => s
  | some b =>
    let u := budgetMapping b
    let bm : Rat :=
      match r.get "budget_numeric" with
      | some v => if v = u then 1 else if |v - u| = 1 then 1/2 else 0
      | none => 0
    nadd s (some (bm * (1/5)))

/-- The moderate temperature formula 1 - |t - 22.5| / 30, clipped to [0,1]. -/
def moderateTempScore (v : Option Rat) : Option Rat :=
  nclip01 (nsub (some 1) (ndiv (nabs (nsub v (some (45/2)))) (some 30)))

/-- Step 3: temperature term, weight 0.15.  The preference defaults to
"moderate" when the key is absent, so the term is applied whenever the
dataset has an avg_temp_summer column. -/
def stepTemp (df : DataFrame) (p : Preferences) (r : Row) (s : Option Rat) : Option Rat :=
  let tp := p.avg_temp_preference.getD "moderate"
  if (tp = "warm" ∨ tp = "moderate" ∨ tp = "cold") ∧ "avg_temp_summer" ∈ df.cols then
    let temps := df.rows.map (fun r' => r'.get "avg_temp_summer")
    let tmin := pdMin temps
    let tmax := pdMax temps
    let v := r.get "avg_temp_summer"
    let ts : Option Rat :=
      if tp = "warm" then ndiv (nsub v tmin) (nsub tmax tmin)
      else if tp = "cold" then nsub (some 1) (ndiv (nsub v tmin) (nsub tmax tmin))
      else moderateTempScore v
    nadd s (nmul ts (some (3/20)))
  else s

/-- Step 4: special-filter term, weight 0.15; sum of the requested filter
columns that exist (missing cells read as 0), divided by the number of
requested filters. -/
def stepSpecial (df : DataFrame) (p : Preferences) (r : Row) (s : Option Rat) : Option Rat :=
  if p.special_filters ≠ [] then
    let fs : Rat :=
      ((p.special_filters.filter (· ∈ df.cols)).map (fun c => (r.get c).getD 0)).sum
    nadd s (some (fs / (p.special_filters.length : Rat) * (3/20)))
  else s

/-- Step 5: threshold penalty; subtract 0.1 per unit shortfall of the
minimum selected activity score below the threshold, then clamp the total
at 0. -/
def stepThreshold (df : DataFrame) (p : Preferences) (r : Row) (s : Option Rat) : Option Rat :=
  if 0 < p.activity_threshold ∧ p.selected_activities ≠ []
      ∧ activityCols df p.selected_activities ≠ [] then
    let cols := activityCols df p.selected_activities
    let pen : Option Rat :=
      match pdMin (cols.map r.get) with
      | some m => some (max 0 (p.activity_threshold - m))
      | none => none
    nclipLower0 (nsub s (nmul pen (some (1/10))))
  else s

/-- Step 7: duration term, weight 0.1 (applied after city exclusion in the
source, but purely per-row, so it commutes with the row filter). -/
def stepDuration (df : DataFrame) (p : Preferences) (r : Row) (s : Option Rat) : Option Rat :=
  match p.duration_col with
  | some c => if c ∈ df.cols then nadd s (nmul (some ((r.get c).getD 0)) (some (1/10))) else s
  | none => s

/-- The recommendation_score of one row, steps 1-5 and 7 of the source. -/
def rowScore (df : DataFrame) (p : Preferences) (r : Row) : Option Rat :=
  stepDuration df p r
    (stepThreshold df p r
      (stepSpecial df p r
        (stepTemp df p r
          (stepBudget p r
            (stepActivity df p r (some 0))))))

/-- Rows surviving step 6 (exclude_cities), paired with their scores. -/
def scoredRows (df : DataFrame) (p : Preferences) : List (Row × Option Rat) :=
  (df.rows.filter (fun r => r.city ∉ p.exclude_cities)).map (fun r => (r, rowScore df p r))

/-- Descending order on scores with NaN placed last
(sort_values ascending=False, na_position defaults to last). -/
def scoreDescRel (a b : Row × Option Rat) : Prop :=
  match a.2, b.2 with
  | some x, some y => y ≤ x
  | some _, none => True
  | none, some _ => False
  | none, none => True

instance : DecidableRel scoreDescRel := by
  intro a b
  rcases a with ⟨ra, _ | x⟩ <;> rcases b with ⟨rb, _ | y⟩
  · exact .isTrue trivial
  · exact .isFalse id
  · exact .isTrue trivial
  · exact inferInstanceAs (Decidable (y ≤ x))

instance : IsTotal (Row × Option Rat) scoreDescRel := by
  constructor
  intro a b
  rcases a with ⟨ra, _ | x⟩ <;> rcases b with ⟨rb, _ | y⟩
  · exact Or.inl trivial
  · exact Or.inr trivial
  · exact Or.inl trivial
  · exact @le_total Rat _ y x

instance : IsTrans (Row × Option Rat) scoreDescRel := by
  constructor
  intro a b c hab hbc
  rcases a with ⟨ra, _ | x⟩ <;> rcases b with ⟨rb, _ | y⟩ <;> rcases c with ⟨rc, _ | z⟩ <;>
    first
      | exact trivial
      | exact False.elim hab
      | exact False.elim hbc
      | exact @le_trans Rat _ z y x hbc hab

/-- sort_values(recommendation_score, ascending=False). -/
def sortByScoreDesc (l : List (Row × Option Rat)) : List (Row × Option Rat) :=
  l.insertionSort scoreDescRel

/-- recommend_cities_by_preferences: score, sort, truncate.  The result is
an error exactly when the source raises: a budget preference is given but
the table has no budget_numeric column (unguarded column access). -/
def recommendCitiesByPreferences (df : DataFrame) (p : Preferences) (topN : Nat) :
    Except String (List (Row × Option Rat)) :=
  if p.budget_level.isSome ∧ "budget_numeric" ∉ df.cols then
    .error "KeyError: budget_numeric"
  else
    .ok ((sortByScoreDesc (scoredRows df p)).take topN)

/-! Embedding of calculate_city_similarity
(recommendation_system.py lines 9-57). -/

/-- The nine canonical activity columns, the default when the
activity_cols argument is None. -/
def simActivityDefault : List String :=
  ["culture", "adventure", "nature", "beaches", "nightlife",
   "cuisine", "wellness", "urban", "seclusion"]

/-- Feature columns of the similarity engine: the chosen activity columns
(the default list only when the argument is None - an empty list is kept
as is) plus budget and the two seasonal temperatures, intersected with the
available columns. -/
def simFeatureCols (df : DataFrame) (activityColsArg : Option (List String)) : List String :=
  ((activityColsArg.getD simActivityDefault)
      ++ ["budget_numeric", "avg_temp_summer", "avg_temp_winter"]).filter (· ∈ df.cols)

/-- Feature vector of one row over the given columns, missing values
filled with 0 (fillna(0)). -/
def rowVec (r : Row) (cols : List String) : List Rat :=
  cols.map (fun c => (r.get c).getD 0)

/-- Dot product of two rational vectors. -/
def dotQ (u v : List Rat) : Rat :=
  (List.zipWith (· * ·) u v).sum

/-- Cosine similarity as sklearn computes it: a vector of zero norm is
treated as if its norm were 1, making its similarities 0. -/
noncomputable def cosineSim (u v : List Rat) : ℝ :=
  if dotQ u u = 0 ∨ dotQ v v = 0 then 0
  else (dotQ u v : ℝ) / (Real.sqrt (dotQ u u : Rat) * Real.sqrt (dotQ v v : Rat))

/-- Descending order on similarity scores. -/
def simDescRel (a b : Row × ℝ) : Prop := b.2 ≤ a.2

noncomputable instance : DecidableRel simDescRel := fun a b => Real.decidableLE b.2 a.2

instance : IsTotal (Row × ℝ) simDescRel :=
  ⟨fun a b => le_total b.2 a.2⟩

instance : IsTrans (Row × ℝ) simDescRel :=
  ⟨fun _ _ _ hab hbc => le_trans hbc hab⟩

/-- calculate_city_similarity: empty result when the reference city
matches no row; otherwise every other city with its cosine similarity to
the first matching row, sorted by descending similarity. -/
noncomputable def calculateCitySimilarity (df : DataFrame) (referenceCity : String)
    (activityColsArg : Option (List String)) : List (Row × ℝ) :=
  match df.rows.find? (fun r => r.city = referenceCity) with
  | none => []
  | some ref =>
    let cols := simFeatureCols df activityColsArg
    let scored := df.rows.map (fun r => (r, cosineSim (rowVec ref cols) (rowVec r cols)))
    (scored.filter (fun x => x.1.city ≠ referenceCity)).insertionSort simDescRel

/-! Embedding of get_personalized_recommendations
(recommendation_system.py lines 224-303). -/

/-- The user_selections mapping consumed by the orchestrator, with the
dict.get defaults of the source. -/
structure Selections where
  selected_activities : List String := []
  budget_level : Option String := none
  activity_threshold : Rat := 0
  special_filters : List String := []
  duration_col : Option String := none
  target_city : Option String := none
deriving DecidableEq

/-- Python truthiness of an optional string (None and the empty string are
falsy). -/
def truthy : Option String → Bool
  | some t => t ≠ ""
  | none => false

/-- The preference dict built identically in the preferences and hybrid
branches of the orchestrator; note that no avg_temp_preference key is set,
so the scorer falls back to its moderate default. -/
def prefsOfSelections (sel : Selections) : Preferences :=
  { selected_activities := sel.selected_activities
    budget_level := sel.budget_level
    activity_threshold := sel.activity_threshold
    special_filters := sel.special_filters
    avg_temp_preference := none
    exclude_cities := if truthy sel.target_city then [sel.target_city.getD ""] else []
    duration_col := sel.duration_col }

/-- Left join of the preference results with the similarity table on the
city column (pandas merge how=left): each left row is repeated once per
matching right row, in right order, and gets similarity NaN - here already
filled to 0 - when no right row matches. -/
def leftJoinSim (pref : List (Row × Option Rat)) (sims : List (Row × ℝ)) :
    List (Row × Option Rat × ℝ) :=
  pref.flatMap (fun x =>
    match (sims.filter (fun s => s.1.city = x.1.city)).map (fun s => (x.1, x.2, s.2)) with
    | [] => [(x.1, x.2, (0 : ℝ))]
    | ms => ms)

/-- hybrid_score = recommendation_score * 0.6 + similarity_score * 0.4;
a NaN recommendation score keeps the hybrid score NaN. -/
noncomputable def hybridScore (rs : Option Rat) (ss : ℝ) : Option ℝ :=
  rs.map (fun q => (q : ℝ) * (3/5) + ss * (2/5))

/-- Descending order on hybrid scores with NaN last. -/
def hybridDescRel (a b : Row × Option Rat × ℝ × Option ℝ) : Prop :=
  match a.2.2.2, b.2.2.2 with
  | some x, some y => y ≤ x
  | some _, none => True
  | none, some _ => False
  | none, none => True

noncomputable instance : DecidableRel hybridDescRel := by
  intro a b
  rcases a with ⟨ra, rsa, sa, _ | x⟩ <;> rcases b with ⟨rb, rsb, sb, _ | y⟩
  · exact .isTrue trivial
  · exact .isFalse id
  · exact .isTrue trivial
  · exact Real.decidableLE y x

instance : IsTotal (Row × Option Rat × ℝ × Option ℝ) hybridDescRel := by
  constructor
  intro a b
  rcases a with ⟨ra, rsa, sa, _ | x⟩ <;> rcases b with ⟨rb, rsb, sb, _ | y⟩
  · exact Or.inl trivial
  · exact Or.inr trivial
  · exact Or.inl trivial
  · exact @le_total ℝ _ y x

instance : IsTrans (Row × Option Rat × ℝ × Option ℝ) hybridDescRel := by
  constructor
  intro a b c hab hbc
  rcases a with ⟨ra, rsa, sa, _ | x⟩ <;> rcases b with ⟨rb, rsb, sb, _ | y⟩ <;>
    rcases c with ⟨rc, rsc, sc, _ | z⟩ <;>
    first
      | exact trivial
      | exact False.elim hab
      | exact False.elim hbc
      | exact @le_trans ℝ _ z y x hbc hab

/-- sort_values(hybrid_score, ascending=False). -/
noncomputable def sortByHybridDesc (l : List (Row × Option Rat × ℝ × Option ℝ)) :
    List (Row × Option Rat × ℝ × Option ℝ) :=
  l.insertionSort hybridDescRel

/-- Result frame of the orchestrator: the column layout differs by
branch, so the result is a sum of typed tables (an empty construction
models the bare pd.DataFrame() fallbacks). -/
inductive RecResult where
  | table (l : List (Row × Option Rat)) : RecResult
  | simTable (l : List (Row × ℝ)) : RecResult
  | hybridTable (l : List (Row × Option Rat × ℝ × Option ℝ)) : RecResult
  | emptyFrame : RecResult

/-- get_personalized_recommendations for the four method strings. -/
noncomputable def getPersonalizedRecommendations (df : DataFrame) (sel : Selections)
    (method : String) (topN : Nat) : Except String RecResult :=
  if method = "preferences" then
    (recommendCitiesByPreferences df (prefsOfSelections sel) topN).map .table
  else if method = "similarity" then
    if truthy sel.target_city then
      .ok (.simTable ((calculateCitySimilarity df (sel.target_city.getD "")
        (some sel.selected_activities)).take topN))
    else
      .ok .emptyFrame
  else if method = "hybrid" then
    match recommendCitiesByPreferences df (prefsOfSelections sel) (2 * topN) with
    | .error e => .error e
    | .ok pref =>
      if truthy sel.target_city ∧ pref ≠ [] then
        let sims := calculateCitySimilarity df (sel.target_city.getD "")
          (some sel.selected_activities)
        let merged := (leftJoinSim pref sims).map
          (fun x => (x.1, x.2.1, x.2.2, hybridScore x.2.1 x.2.2))
        .ok (.hybridTable ((sortByHybridDesc merged).take topN))
      else
        .ok (.table (pref.take topN))
  else
    .ok .emptyFrame

/-! Embedding of feature_engineering.py. -/

/-- The canonical numeric feature list of prepare_features_for_clustering. -/
def clusteringFeatureList : List String :=
  ["culture", "adventure", "nature", "beaches", "nightlife",
   "cuisine", "wellness", "urban", "seclusion",
   "latitude", "longitude",
   "avg_temp_summer", "avg_temp_winter",
   "budget_numeric", "distance_to_airport_km",
   "Alcohol-free", "Halal-friendly", "Safe", "family_friendly",
   "airport_closeness",
   "short_trip", "weekend", "long_trip", "one_week", "day_trip"]

/-- prepare_features_for_clustering: restrict to the available canonical
columns and fill missing cells with the column mean (a column with no
value at all keeps NaN). Returns the feature matrix and the effective
feature names. -/
def prepareFeaturesForClustering (df : DataFrame) :
    List (List (Option Rat)) × List String :=
  let avail := clusteringFeatureList.filter (· ∈ df.cols)
  let colMean := fun c => pdMean (df.rows.map (fun r => r.get c))
  (df.rows.map (fun r => avail.map (fun c =>
      match r.get c with
      | some v => some v
      | none => colMean c)),
   avail)

/-- numpy argmax over a boolean vector: index of the first True, 0 when
none is True. -/
def npArgmaxBool (l : List Bool) : Nat :=
  match l.findIdx? id with
  | some i => i
  | none => 0

/-- Cumulative sums (np.cumsum). -/
def cumsum (l : List Rat) : List Rat :=
  (List.range l.length).map (fun i => (l.take (i + 1)).sum)

/-- Component count chosen by apply_pca when n_components is None:
argmax of (cumulative variance >= threshold) plus one, capped at the
feature count. -/
def pcaChooseK (ratios : List Rat) (threshold : Rat) (nfeat : Nat) : Nat :=
  min (npArgmaxBool ((cumsum ratios).map (fun c => decide (threshold ≤ c))) + 1) nfeat

/-- Output rows of apply_pca: the city, country and region of the input
row at the same position, next to the projected components (pd.concat on
reset positional indices; a missing side would be NaN-padded, hence the
Option pairing). -/
def pcaAttachIds (ids : List (String × String × String)) (comps : List (List ℝ)) :
    List (Option (String × String × String) × Option (List ℝ)) :=
  (List.range (max ids.length comps.length)).map (fun i => (ids[i]?, comps[i]?))

/-- Result of apply_pca: the identifier/component rows and the retained
component count. -/
structure PcaResult where
  rows : List (Option (String × String × String) × Option (List ℝ))
  nComponents : Nat

/-- The component count used by apply_pca: the explicit argument when
given, else the threshold-driven choice over the full-fit ratios. -/
def pcaNComponents (nComponentsArg : Option Nat) (threshold : Rat) (fullRatios : List Rat)
    (df : DataFrame) : Nat :=
  match nComponentsArg with
  | some k => k
  | none => pcaChooseK fullRatios threshold (prepareFeaturesForClustering df).2.length

/-- apply_pca.  The numeric fit is abstracted: fullRatios stands for the
explained-variance ratios of the preliminary full PCA fit, and transform k
for the composition of StandardScaler.fit_transform with the k-component
PCA.fit_transform (both row-count preserving in scikit-learn).  The error
cases are the ValueError raises of scikit-learn on an empty sample or
empty feature matrix; no other refusal exists in the source. -/
def applyPca (df : DataFrame) (nComponentsArg : Option Nat) (threshold : Rat)
    (fullRatios : List Rat) (transform : Nat → List (List (Option Rat)) → List (List ℝ)) :
    Except String PcaResult :=
  if df.rows = [] ∨ (prepareFeaturesForClustering df).2 = [] then
    .error "ValueError: 0 sample(s) or 0 feature(s)"
  else
    .ok ⟨pcaAttachIds (df.rows.map (fun r => (r.city, r.country, r.region)))
          (transform (pcaNComponents nComponentsArg threshold fullRatios df)
            (prepareFeaturesForClustering df).1),
        pcaNComponents nComponentsArg threshold fullRatios df⟩

/-- The candidate cluster counts searched when n_clusters is None:
range(2, min(11, rows // 10 + 1)). -/
def kRange (nrows : Nat) : List Nat :=
  List.range' 2 (min 11 (nrows / 10 + 1) - 2)

/-- The silhouette-driven K search: one scored fit per candidate, keeping
the first strict improvement over the running best, which starts at
(-1, 2). -/
def selectBestK (score : Nat → Rat) (nrows : Nat) : Nat :=
  ((kRange nrows).foldl
    (fun best k => if best.1 < score k then (score k, k) else best)
    ((-1 : Rat), 2)).2

/-- The cluster count used by apply_kmeans_clustering: the explicit
argument when given, else the silhouette-search winner. -/
def kmeansChosenK (nClustersArg : Option Nat) (score : Nat → Rat) (nrows : Nat) : Nat :=
  match nClustersArg with
  | some k => k
  | none => selectBestK score nrows

/-- apply_kmeans_clustering, clustering fits abstracted: score k stands
for the silhouette score of the k-cluster fit on the prepared feature
space, labels k for the label vector of the final k-cluster fit.  The
result attaches each label to the input row at the same position; a label
vector of the wrong length would make the pandas column assignment raise. -/
def applyKmeansClustering (df : DataFrame) (nClustersArg : Option Nat)
    (score : Nat → Rat) (labels : Nat → List Int) :
    Except String (List (Row × Int) × Nat) :=
  if (labels (kmeansChosenK nClustersArg score df.rows.length)).length ≠ df.rows.length then
    .error "ValueError: Length of values does not match length of index"
  else
    .ok (df.rows.zip (labels (kmeansChosenK nClustersArg score df.rows.length)),
      kmeansChosenK nClustersArg score df.rows.length)

/-! Helper lemmas. -/

/-- Specification of List.findIdx? on a success: the found index is past
the start index, points at an element satisfying the predicate, and every
earlier element fails it. -/
theorem findIdx?_spec {α : Type} (p : α → Bool) :
    ∀ (l : List α) (i j : Nat), l.findIdx? p i = some j →
      i ≤ j ∧ j - i < l.length ∧
      (∃ x, l[j - i]? = some x ∧ p x = true) ∧
      (∀ m, m < j - i → ∀ x, l[m]? = some x → p x = false) := by
  intro l
  induction l with
  | nil => intro i j h; simp [List.findIdx?_nil] at h
  | cons a as ih =>
    intro i j h
    rw [List.findIdx?_cons] at h
    by_cases hp : p a = true
    · rw [if_pos hp] at h
      cases h
      refine ⟨le_refl _, by simp, ⟨a, by simp, hp⟩, ?_⟩
      intro m hm
      omega
    · rw [if_neg hp] at h
      obtain ⟨h1, h2, ⟨x, hx, hpx⟩, hmin⟩ := ih (i + 1) j h
      refine ⟨by omega, by simp; omega, ⟨x, ?_, hpx⟩, ?_⟩
      · have : j - i = (j - (i + 1)) + 1 := by omega
        rw [this]
        simpa using hx
      · intro m hm y hy
        match m with
        | 0 =>
          simp at hy
          rw [← hy]
          exact eq_false_of_ne_true hp
        | Nat.succ m' =>
          refine hmin m' (by omega) y ?_
          simpa using hy

/-- List.findIdx? finds an index when some element satisfies the
predicate. -/
theorem findIdx?_isSome {α : Type} (p : α → Bool) :
    ∀ (l : List α) (i : Nat), (∃ x ∈ l, p x = true) → (l.findIdx? p i).isSome := by
  intro l
  induction l with
  | nil => intro i h; simp at h
  | cons a as ih =>
    intro i ⟨x, hx, hpx⟩
    rw [List.findIdx?_cons]
    by_cases hp : p a = true
    · rw [if_pos hp]; rfl
    · rw [if_neg hp]
      rcases List.mem_cons.1 hx with h | h
      · subst h; exact absurd hpx hp
      · exact ih (i + 1) ⟨x, h, hpx⟩

theorem cumsum_length (l : List Rat) : (cumsum l).length = l.length := by
  simp [cumsum]

theorem cumsum_getElem? (l : List Rat) (i : Nat) (h : i < l.length) :
    (cumsum l)[i]? = some ((l.take (i + 1)).sum) := by
  simp [cumsum, h]

/-! C4: component count chosen by apply_pca. -/

/-- C4: when reduce_dimensions (apply_pca) is called without an explicit
component count, the retained count is the smallest k whose cumulative
explained-variance ratio reaches the threshold, capped at (and never
exceeding) the number of available features.  The hypotheses state what
the preliminary full PCA fit guarantees: a positive threshold, some
cumulative prefix reaching it, and at most one ratio per feature. -/
theorem c4_pca_component_count (ratios : List Rat) (t : Rat) (nfeat : Nat)
    (ht : 0 < t)
    (hex : ∃ i, i < ratios.length ∧ t ≤ (ratios.take (i + 1)).sum)
    (hlen : ratios.length ≤ nfeat) :
    pcaChooseK ratios t nfeat ≤ nfeat ∧
    t ≤ (ratios.take (pcaChooseK ratios t nfeat)).sum ∧
    ∀ j < pcaChooseK ratios t nfeat, (ratios.take j).sum < t := by
  classical
  set bl := (cumsum ratios).map (fun c => decide (t ≤ c)) with hbl
  have hbllen : bl.length = ratios.length := by
    simp [hbl, cumsum_length]
  have hexbl : ∃ x ∈ bl, id x = true := by
    obtain ⟨i, hi, hsum⟩ := hex
    refine ⟨true, ?_, rfl⟩
    have : bl[i]? = some true := by
      simp only [hbl, List.getElem?_map, cumsum_getElem? ratios i hi]
      simpa using hsum
    obtain ⟨hilt, hieq⟩ := List.getElem?_eq_some.1 this
    exact hieq ▸ List.getElem_mem hilt
  have hsome := findIdx?_isSome id bl 0 hexbl
  obtain ⟨i0, hi0⟩ : ∃ i0, bl.findIdx? id 0 = some i0 :=
    Option.isSome_iff_exists.1 hsome
  obtain ⟨-, hlt, ⟨x, hx, hpx⟩, hmin⟩ := findIdx?_spec id bl 0 i0 hi0
  simp only [Nat.sub_zero] at hlt hx hmin
  have hargmax : npArgmaxBool bl = i0 := by
    simp [npArgmaxBool, hi0]
  have hklt : i0 < ratios.length := hbllen ▸ hlt
  have hkey : pcaChooseK ratios t nfeat = i0 + 1 := by
    simp only [pcaChooseK, ← hbl, hargmax]
    omega
  rw [hkey]
  refine ⟨by omega, ?_, ?_⟩
  · have : bl[i0]? = some (decide (t ≤ (ratios.take (i0 + 1)).sum)) := by
      simp only [hbl, List.getElem?_map, cumsum_getElem? ratios i0 hklt]
      rfl
    rw [this] at hx
    cases hx
    simpa [id] using hpx
  · intro j hj
    match j with
    | 0 => simpa using ht
    | Nat.succ m =>
      have hm : m < i0 := by omega
      have hmlen : m < ratios.length := by omega
      have : bl[m]? = some (decide (t ≤ (ratios.take (m + 1)).sum)) := by
        simp only [hbl, List.getElem?_map, cumsum_getElem? ratios m hmlen]
        rfl
      have hfalse := hmin m hm _ this
      simp only [id] at hfalse
      have := of_decide_eq_false hfalse
      exact lt_of_not_le this

/-- The explained-variance ratio list of the C4 witness: the first two of
twenty features already explain 0.97 of the variance. -/
def c4ratios : List Rat := [1/2, 47/100] ++ List.replicate 18 (1/600)

/-- C4 witness: at threshold 0.95 over c4ratios exactly 2 components are
retained. -/
theorem c4_pca_component_count_witness :
    (0 : Rat) < 19/20 ∧
    (∃ i, i < c4ratios.length ∧ (19:Rat)/20 ≤ (c4ratios.take (i + 1)).sum) ∧
    c4ratios.length ≤ 20 ∧
    pcaChooseK c4ratios (19/20) 20 = 2 := by
  have hlen : c4ratios.length = 20 := by simp [c4ratios]
  have hex : ∃ i, i < c4ratios.length ∧ (19:Rat)/20 ≤ (c4ratios.take (i + 1)).sum := by
    refine ⟨1, by omega, ?_⟩
    norm_num [c4ratios]
  obtain ⟨hcap, hreach, hbelow⟩ :=
    c4_pca_component_count c4ratios (19/20) 20 (by norm_num) hex (by omega)
  refine ⟨by norm_num, hex, by omega, ?_⟩
  set k := pcaChooseK c4ratios (19/20) 20 with hk
  have hk1 : ¬ k ≤ 1 := by
    intro hle
    have h1 : ((c4ratios.take k).sum : Rat) ≤ 1/2 := by
      match k, hle with
      | 0, _ => norm_num
      | 1, _ => norm_num [c4ratios]
    linarith [hreach]
  have hk2 : ¬ 3 ≤ k := by
    intro hge
    have := hbelow 2 (by omega)
    have h2 : ((c4ratios.take 2).sum : Rat) = 97/100 := by
      norm_num [c4ratios]
    rw [h2] at this
    norm_num at this
  omega

/-! C5: the automatic K search of apply_kmeans_clustering. -/

/-- The K candidates as the claim words them: the integers from 2 through
min(10, rows/10 + 1) inclusive. -/
def specKCandidatesClaim (nrows : Nat) : List Nat :=
  List.range' 2 (min 10 (nrows / 10 + 1) - 1)

/-- C5 counterexample: at 50 rows the claim says K=6 is searched, but the
code stops at 5 (range(2, min(11, 50 // 10 + 1)) = [2..5]). -/
theorem c5_k_range_counterexample :
    6 ∈ specKCandidatesClaim 50 ∧ 6 ∉ kRange 50 ∧
    specKCandidatesClaim 50 ≠ kRange 50 := by
  decide

/-- The fold step of the silhouette search. -/
private def bestStep (score : Nat → Rat) : Rat × Nat → Nat → Rat × Nat :=
  fun best k => if best.1 < score k then (score k, k) else best

theorem bestStep_fst_le (score : Nat → Rat) :
    ∀ (l : List Nat) (b : Rat × Nat), b.1 ≤ (l.foldl (bestStep score) b).1 := by
  intro l
  induction l with
  | nil => intro b; exact le_refl _
  | cons k rest ih =>
    intro b
    refine le_trans ?_ (ih (bestStep score b k))
    by_cases h : b.1 < score k
    · simp only [bestStep, if_pos h]
      exact le_of_lt h
    · simp only [bestStep, if_neg h]
      exact le_refl _

theorem bestStep_ub (score : Nat → Rat) :
    ∀ (l : List Nat) (b : Rat × Nat), ∀ k ∈ l, score k ≤ (l.foldl (bestStep score) b).1 := by
  intro l
  induction l with
  | nil => intro b k hk; simp at hk
  | cons k0 rest ih =>
    intro b k hk
    rcases List.mem_cons.1 hk with h | h
    · subst h
      refine le_trans ?_ (bestStep_fst_le score rest (bestStep score b k))
      by_cases h : b.1 < score k
      · simp only [bestStep, if_pos h]
        exact le_refl _
      · simp only [bestStep, if_neg h]
        exact le_of_not_lt h
    · exact ih (bestStep score b k0) k h

theorem bestStep_achieved (score : Nat → Rat) :
    ∀ (l : List Nat) (b : Rat × Nat),
      l.foldl (bestStep score) b = b ∨
      ((l.foldl (bestStep score) b).2 ∈ l ∧
        score (l.foldl (bestStep score) b).2 = (l.foldl (bestStep score) b).1) := by
  intro l
  induction l with
  | nil => intro b; exact Or.inl rfl
  | cons k0 rest ih =>
    intro b
    rcases ih (bestStep score b k0) with h | h
    · simp only [List.foldl_cons, h]
      by_cases hc : b.1 < score k0
      · exact Or.inr ⟨by simp [bestStep, if_pos hc], by simp [bestStep, if_pos hc]⟩
      · exact Or.inl (by simp [bestStep, if_neg hc])
    · exact Or.inr ⟨List.mem_cons_of_mem k0 h.1, h.2⟩

/-- C5 amended: the candidates searched are exactly the integers 2
through min(10, rows/10) inclusive; among them the first silhouette
maximum is selected, and an empty (or inverted) range falls back to K=2.
The hypothesis is the silhouette range guarantee. -/
theorem c5_k_search (nrows : Nat) (score : Nat → Rat)
    (hs : ∀ k ∈ kRange nrows, -1 ≤ score k) :
    (∀ k, k ∈ kRange nrows ↔ 2 ≤ k ∧ k ≤ min 10 (nrows / 10)) ∧
    (kRange nrows = [] → selectBestK score nrows = 2) ∧
    (kRange nrows ≠ [] →
      selectBestK score nrows ∈ kRange nrows ∧
      ∀ k ∈ kRange nrows, score k ≤ score (selectBestK score nrows)) := by
  refine ⟨?_, ?_, ?_⟩
  · intro k
    rw [kRange, List.mem_range'_1]
    omega
  · intro h
    simp [selectBestK, h]
  · intro hne
    have h2mem : 2 ∈ kRange nrows := by
      rw [kRange, List.mem_range'_1]
      rw [kRange] at hne
      simp only [ne_eq, List.range'_eq_nil] at hne
      omega
    have hfold : selectBestK score nrows =
        ((kRange nrows).foldl (bestStep score) ((-1 : Rat), 2)).2 := by
      rfl
    rcases bestStep_achieved score (kRange nrows) ((-1 : Rat), 2) with h | h
    · have hub := bestStep_ub score (kRange nrows) ((-1 : Rat), 2)
      rw [h] at hub
      constructor
      · rw [hfold, h]
        exact h2mem
      · intro k hk
        have h1 : score k ≤ -1 := hub k hk
        have h2 := hs 2 h2mem
        rw [hfold, h]
        show score k ≤ score 2
        linarith
    · constructor
      · rw [hfold]; exact h.1
      · intro k hk
        have := bestStep_ub score (kRange nrows) ((-1 : Rat), 2) k hk
        rw [hfold, h.2]
        exact this

/-- The score table of the C5 witness: K=4 has the best silhouette. -/
def c5score (k : Nat) : Rat := if k = 4 then 1 else 0

/-- C5 witness: at 100 rows the searched range is 2..10 and K=4 is
selected as the silhouette maximizer. -/
theorem c5_k_search_witness :
    (∀ k ∈ kRange 100, (-1 : Rat) ≤ c5score k) ∧
    ((∀ k, k ∈ kRange 100 ↔ 2 ≤ k ∧ k ≤ min 10 (100 / 10)) ∧
      (kRange 100 = [] → selectBestK c5score 100 = 2) ∧
      (kRange 100 ≠ [] →
        selectBestK c5score 100 ∈ kRange 100 ∧
        ∀ k ∈ kRange 100, c5score k ≤ c5score (selectBestK c5score 100))) := by
  constructor
  · intro k hk
    simp only [c5score]
    split <;> norm_num
  · refine c5_k_search 100 c5score ?_
    intro k hk
    simp only [c5score]
    split <;> norm_num

/-! C7 and C8: row alignment and the missing minimum-row check. -/

theorem range_map_getElem {α : Type} :
    ∀ (l : List α), (List.range l.length).map (fun i => l[i]?) = l.map some := by
  intro l
  induction l with
  | nil => rfl
  | cons a as ih =>
    rw [List.length_cons, List.range_succ_eq_map, List.map_cons, List.map_map]
    rw [List.map_cons]
    congr 1
    · simp
    · have hcomp : ((fun i => (a :: as)[i]?) ∘ Nat.succ) = fun i => as[i]? := by
        funext i
        simp
      rw [hcomp, ih]

/-- C7: the outputs of apply_pca and apply_kmeans_clustering have exactly
one row per input row, and the city/country/region identifiers at
position i are those of input row i.  The hypotheses state the
scikit-learn contract that fitting preserves the sample count, and that
the label vector matches the row count (else pandas raises). -/
theorem c7_row_alignment (df : DataFrame)
    (nComponentsArg : Option Nat) (threshold : Rat) (fullRatios : List Rat)
    (transform : Nat → List (List (Option Rat)) → List (List ℝ))
    (htr : ∀ k m, (transform k m).length = m.length)
    (nClustersArg : Option Nat) (score : Nat → Rat) (labels : Nat → List Int) :
    (∀ res, applyPca df nComponentsArg threshold fullRatios transform = .ok res →
      res.rows.length = df.rows.length ∧
      res.rows.map Prod.fst = df.rows.map (fun r => some (r.city, r.country, r.region))) ∧
    (∀ res, applyKmeansClustering df nClustersArg score labels = .ok res →
      res.1.length = df.rows.length ∧
      res.1.map Prod.fst = df.rows) := by
  constructor
  · intro res h
    unfold applyPca at h
    by_cases hguard : df.rows = [] ∨ (prepareFeaturesForClustering df).2 = []
    · rw [if_pos hguard] at h
      exact absurd h (by simp)
    · rw [if_neg hguard, Except.ok.injEq] at h
      subst h
      set ids := df.rows.map (fun r => (r.city, r.country, r.region)) with hids
      set comps := transform (pcaNComponents nComponentsArg threshold fullRatios df)
        (prepareFeaturesForClustering df).1 with hcomps
      have hlids : ids.length = df.rows.length := by simp [hids]
      have hlcomps : comps.length = df.rows.length := by
        rw [hcomps, htr]
        simp [prepareFeaturesForClustering]
      have hmax : max ids.length comps.length = ids.length := by omega
      constructor
      · simp only [pcaAttachIds, hmax, List.length_map, List.length_range]
        exact hlids
      · show (pcaAttachIds ids comps).map Prod.fst
          = df.rows.map (fun r => some (r.city, r.country, r.region))
        rw [pcaAttachIds, hmax, List.map_map]
        have hfst : (Prod.fst ∘ fun i : Nat => (ids[i]?, comps[i]?))
            = fun i : Nat => ids[i]? := rfl
        rw [hfst, range_map_getElem ids, hids, List.map_map]
        rfl
  · intro res h
    unfold applyKmeansClustering at h
    by_cases hguard :
        (labels (kmeansChosenK nClustersArg score df.rows.length)).length ≠ df.rows.length
    · rw [if_pos hguard] at h
      exact absurd h (by simp)
    · rw [if_neg hguard, Except.ok.injEq] at h
      subst h
      rw [Decidable.not_not] at hguard
      constructor
      · simp [List.length_zip, hguard]
      · exact List.map_fst_zip _ _ (by omega)

/-- A two-row table: enough for scikit-learn, fewer than the three rows
the claim says are refused. -/
def dfTwo : DataFrame :=
  ⟨["city", "culture"],
   [⟨"A", "X", "R", [("culture", 1)]⟩, ⟨"B", "Y", "R", [("culture", 2)]⟩]⟩

/-- The abstract fit used in concrete checks: projects every row to the
empty component vector (row-count preserving). -/
def emptyTransform : Nat → List (List (Option Rat)) → List (List ℝ) :=
  fun _ m => m.map (fun _ => [])

/-- C7 witness: on a concrete two-row table with a row-count-preserving
fit, both outputs align with the input rows. -/
theorem c7_row_alignment_witness :
    (∃ res, applyPca dfTwo (some 1) (19/20) [1] emptyTransform = .ok res ∧
      res.rows.length = dfTwo.rows.length ∧
      res.rows.map Prod.fst = dfTwo.rows.map (fun r => some (r.city, r.country, r.region))) ∧
    (∃ res, applyKmeansClustering dfTwo (some 2) (fun _ => 0) (fun _ => [0, 1]) = .ok res ∧
      res.1.length = dfTwo.rows.length ∧
      res.1.map Prod.fst = dfTwo.rows) := by
  have h := c7_row_alignment dfTwo (some 1) (19/20) [1] emptyTransform
    (fun k m => by simp [emptyTransform]) (some 2) (fun _ => 0) (fun _ => [0, 1])
  constructor
  · obtain ⟨h1, h2⟩ := h.1 _ rfl
    exact ⟨_, rfl, h1, h2⟩
  · obtain ⟨h1, h2⟩ := h.2 _ rfl
    exact ⟨_, rfl, h1, h2⟩

/-- C8 counterexample: apply_pca computes a normal result on a two-row
dataset instead of raising an insufficient-data error. -/
theorem c8_counterexample :
    dfTwo.rows.length < 3 ∧
    applyPca dfTwo (some 1) (19/20) [1] (fun _ _ => []) =
      .ok ⟨[(some ("A", "X", "R"), none), (some ("B", "Y", "R"), none)], 1⟩ := by
  exact ⟨by decide, rfl⟩

/-- C8 amended: neither function checks for a minimum of three rows -
apply_pca returns a normal result on any nonempty sub-three-row dataset
with at least one canonical feature column, and the automatic-K search
range of apply_kmeans_clustering is empty there, so K silently falls back
to 2; any failure then comes from scikit-learn internals, not from a
descriptive refusal. -/
theorem c8_no_min_row_check (df : DataFrame) (nComponentsArg : Option Nat)
    (threshold : Rat) (fullRatios : List Rat)
    (transform : Nat → List (List (Option Rat)) → List (List ℝ))
    (hrows : df.rows.length < 3) (hne : df.rows ≠ [])
    (hfeat : (prepareFeaturesForClustering df).2 ≠ []) :
    (∃ res, applyPca df nComponentsArg threshold fullRatios transform = .ok res) ∧
    kRange df.rows.length = [] := by
  constructor
  · unfold applyPca
    rw [if_neg (by push_neg; exact ⟨hne, hfeat⟩)]
    exact ⟨_, rfl⟩
  · have h0 : min 11 (df.rows.length / 10 + 1) - 2 = 0 := by omega
    rw [kRange, h0]
    rfl

/-- C8 witness for the amended statement, at the concrete two-row table. -/
theorem c8_no_min_row_check_witness :
    dfTwo.rows.length < 3 ∧
    ((∃ res, applyPca dfTwo none (19/20) [1] emptyTransform = .ok res) ∧
      kRange dfTwo.rows.length = []) := by
  refine ⟨by decide, c8_no_min_row_check dfTwo none (19/20) [1] emptyTransform
    (by decide) (by decide) ?_⟩
  decide


/-! Helper lemmas for the preference scorer. -/

theorem nadd_zero_left (x : Option Rat) : nadd (some 0) x = x := by
  cases x with
  | none => rfl
  | some v => simp [nadd, nf2]

theorem pdMean_singleton (x : Option Rat) : pdMean [x] = x := by
  cases x with
  | none => rfl
  | some v => simp [pdMean, someValues]

theorem foldl_max_eq (m : Rat) :
    ∀ (xs : List Rat) (x : Rat), m ∈ x :: xs → (∀ y ∈ x :: xs, y ≤ m) →
      xs.foldl max x = m := by
  intro xs
  induction xs with
  | nil =>
    intro x hmem hub
    simp only [List.foldl_nil]
    exact (List.mem_singleton.1 hmem).symm
  | cons y ys ih =>
    intro x hmem hub
    simp only [List.foldl_cons]
    refine ih (max x y) ?_ ?_
    · rcases List.mem_cons.1 hmem with h | h
      · have hxy : max x y = m := by
          subst h
          exact max_eq_left (hub y (by simp))
        exact hxy ▸ List.mem_cons_self _ _
      · rcases List.mem_cons.1 h with h2 | h2
        · have hxy : max x y = m := by
            subst h2
            exact max_eq_right (hub x (by simp))
          exact hxy ▸ List.mem_cons_self _ _
        · exact List.mem_cons_of_mem _ h2
    · intro z hz
      rcases List.mem_cons.1 hz with h | h
      · subst h
        exact max_le (hub x (by simp)) (hub y (by simp))
      · exact hub z (by simp [h])

/-- pandas max of an option column: it equals m when m occurs and
dominates every present value (missing cells read as 0 here, so a
nonnegative m is implied by the bound on present values). -/
theorem pdMax_eq (l : List (Option Rat)) (m : Rat)
    (hmem : some m ∈ l) (hub : ∀ x ∈ l, x.getD 0 ≤ m) :
    pdMax l = some m := by
  have hmem2 : m ∈ someValues l := by
    simp only [someValues, List.mem_filterMap]
    exact ⟨some m, hmem, rfl⟩
  have hub2 : ∀ v ∈ someValues l, v ≤ m := by
    intro v hv
    simp only [someValues, List.mem_filterMap, id] at hv
    obtain ⟨x, hx, hxv⟩ := hv
    have := hub x hx
    rw [hxv] at this
    exact this
  cases hsv : someValues l with
  | nil =>
    rw [hsv] at hmem2
    simp at hmem2
  | cons x xs =>
    simp only [pdMax, hsv]
    rw [foldl_max_eq m xs x (hsv ▸ hmem2) (fun y hy => hub2 y (hsv ▸ hy))]

/-! C9: the unguarded temperature normalization. -/

/-- Two cities sharing summer temperature 25, a legal dataset. -/
def rowC9a : Row := ⟨"Lima", "Peru", "South America",
  [("culture", 80), ("avg_temp_summer", 25)]⟩

def rowC9b : Row := ⟨"Quito", "Ecuador", "South America",
  [("culture", 60), ("avg_temp_summer", 25)]⟩

def dfC9 : DataFrame :=
  ⟨["city", "country", "region", "culture", "avg_temp_summer"], [rowC9a, rowC9b]⟩

/-- A preference record asking for warm weather only. -/
def warmPrefs : Preferences := { avg_temp_preference := some "warm" }

/-- C9: the warm-preference normalization (t - min)/(max - min) is not
guarded; when every city has the same summer temperature it evaluates
0/0 = NaN (modelled by none) and the recommendation score of every city
becomes NaN, contradicting the spec requirement that no division by zero
is evaluated and no NaN score is produced. -/
theorem c9_unguarded_temp_division :
    rowScore dfC9 warmPrefs rowC9a = none ∧ rowScore dfC9 warmPrefs rowC9b = none := by
  have h3a : stepTemp dfC9 warmPrefs rowC9a (some 0) = none := by
    simp [stepTemp, warmPrefs, dfC9, rowC9a, rowC9b, Row.get, lookupCell,
      pdMin, pdMax, someValues, ndiv, nsub, nmul, nadd, nf2]
  have h3b : stepTemp dfC9 warmPrefs rowC9b (some 0) = none := by
    simp [stepTemp, warmPrefs, dfC9, rowC9a, rowC9b, Row.get, lookupCell,
      pdMin, pdMax, someValues, ndiv, nsub, nmul, nadd, nf2]
  constructor
  · show stepDuration dfC9 warmPrefs rowC9a
      (stepThreshold dfC9 warmPrefs rowC9a
        (stepSpecial dfC9 warmPrefs rowC9a
          (stepTemp dfC9 warmPrefs rowC9a
            (stepBudget warmPrefs rowC9a
              (stepActivity dfC9 warmPrefs rowC9a (some 0)))))) = none
    rw [show stepActivity dfC9 warmPrefs rowC9a (some 0) = some 0 by
        simp [stepActivity, warmPrefs]]
    rw [show stepBudget warmPrefs rowC9a (some 0) = some 0 by
        simp [stepBudget, warmPrefs]]
    rw [h3a]
    rw [show stepSpecial dfC9 warmPrefs rowC9a none = none by
        simp [stepSpecial, warmPrefs]]
    rw [show stepThreshold dfC9 warmPrefs rowC9a none = none by
        simp [stepThreshold, warmPrefs]]
    simp [stepDuration, warmPrefs]
  · show stepDuration dfC9 warmPrefs rowC9b
      (stepThreshold dfC9 warmPrefs rowC9b
        (stepSpecial dfC9 warmPrefs rowC9b
          (stepTemp dfC9 warmPrefs rowC9b
            (stepBudget warmPrefs rowC9b
              (stepActivity dfC9 warmPrefs rowC9b (some 0)))))) = none
    rw [show stepActivity dfC9 warmPrefs rowC9b (some 0) = some 0 by
        simp [stepActivity, warmPrefs]]
    rw [show stepBudget warmPrefs rowC9b (some 0) = some 0 by
        simp [stepBudget, warmPrefs]]
    rw [h3b]
    rw [show stepSpecial dfC9 warmPrefs rowC9b none = none by
        simp [stepSpecial, warmPrefs]]
    rw [show stepThreshold dfC9 warmPrefs rowC9b none = none by
        simp [stepThreshold, warmPrefs]]
    simp [stepDuration, warmPrefs]

/-! C6: the score of an empty preference record. -/

/-- A preference record with no fields set. -/
def emptyPrefs : Preferences := {}

/-- C6 counterexample: with no preferences set, every city of a dataset
that has an avg_temp_summer column still gets the moderate-default
temperature term, here 0.15 x (1 - |25 - 22.5| / 30) = 11/80, not 0. -/
theorem c6_counterexample :
    recommendCitiesByPreferences dfC9 emptyPrefs 10 =
      .ok [(rowC9a, some (11/80)), (rowC9b, some (11/80))] ∧
    (11 : Rat)/80 ≠ 0 := by
  have ha : rowScore dfC9 emptyPrefs rowC9a = some (11/80) := by
    show stepDuration dfC9 emptyPrefs rowC9a
      (stepThreshold dfC9 emptyPrefs rowC9a
        (stepSpecial dfC9 emptyPrefs rowC9a
          (stepTemp dfC9 emptyPrefs rowC9a
            (stepBudget emptyPrefs rowC9a
              (stepActivity dfC9 emptyPrefs rowC9a (some 0)))))) = some (11/80)
    rw [show stepActivity dfC9 emptyPrefs rowC9a (some 0) = some 0 by
        simp [stepActivity, emptyPrefs]]
    rw [show stepBudget emptyPrefs rowC9a (some 0) = some 0 by
        simp [stepBudget, emptyPrefs]]
    rw [show stepTemp dfC9 emptyPrefs rowC9a (some 0) = some (11/80) by
        simp [stepTemp, emptyPrefs, dfC9, rowC9a, Row.get, lookupCell,
          moderateTempScore, nclip01, nabs, nsub, ndiv, nmul, nadd, nf2]
        rw [show |(25 : Rat) - 45/2| = 5/2 by rw [abs_of_nonneg (by norm_num)]; norm_num]
        norm_num [min_def, max_def]]
    rw [show stepSpecial dfC9 emptyPrefs rowC9a (some (11/80)) = some (11/80) by
        simp [stepSpecial, emptyPrefs]]
    rw [show stepThreshold dfC9 emptyPrefs rowC9a (some (11/80)) = some (11/80) by
        simp [stepThreshold, emptyPrefs]]
    simp [stepDuration, emptyPrefs]
  have hb : rowScore dfC9 emptyPrefs rowC9b = some (11/80) := by
    show stepDuration dfC9 emptyPrefs rowC9b
      (stepThreshold dfC9 emptyPrefs rowC9b
        (stepSpecial dfC9 emptyPrefs rowC9b
          (stepTemp dfC9 emptyPrefs rowC9b
            (stepBudget emptyPrefs rowC9b
              (stepActivity dfC9 emptyPrefs rowC9b (some 0)))))) = some (11/80)
    rw [show stepActivity dfC9 emptyPrefs rowC9b (some 0) = some 0 by
        simp [stepActivity, emptyPrefs]]
    rw [show stepBudget emptyPrefs rowC9b (some 0) = some 0 by
        simp [stepBudget, emptyPrefs]]
    rw [show stepTemp dfC9 emptyPrefs rowC9b (some 0) = some (11/80) by
        simp [stepTemp, emptyPrefs, dfC9, rowC9b, Row.get, lookupCell,
          moderateTempScore, nclip01, nabs, nsub, ndiv, nmul, nadd, nf2]
        rw [show |(25 : Rat) - 45/2| = 5/2 by rw [abs_of_nonneg (by norm_num)]; norm_num]
        norm_num [min_def, max_def]]
    rw [show stepSpecial dfC9 emptyPrefs rowC9b (some (11/80)) = some (11/80) by
        simp [stepSpecial, emptyPrefs]]
    rw [show stepThreshold dfC9 emptyPrefs rowC9b (some (11/80)) = some (11/80) by
        simp [stepThreshold, emptyPrefs]]
    simp [stepDuration, emptyPrefs]
  refine ⟨?_, by norm_num⟩
  unfold recommendCitiesByPreferences
  rw [if_neg (by simp [emptyPrefs])]
  have hsr0 : scoredRows dfC9 emptyPrefs
      = [(rowC9a, rowScore dfC9 emptyPrefs rowC9a),
         (rowC9b, rowScore dfC9 emptyPrefs rowC9b)] := rfl
  rw [hsr0, ha, hb]
  norm_num [sortByScoreDesc, List.insertionSort, List.orderedInsert, scoreDescRel]

/-- C6 amended: a preference record with no fields set gives every city
the score 0.15 x clip(1 - |avg_temp_summer - 22.5| / 30, 0, 1) - NaN when
the value is missing - whenever the dataset has an avg_temp_summer column
(the temperature preference silently defaults to moderate), and the score
0 only when that column is absent.  Equal scores are ordered by pandas
sort_values with its default quicksort, so no stability guarantee is part
of the code. -/
theorem c6_empty_preferences_scores (df : DataFrame) (r : Row) :
    rowScore df emptyPrefs r =
      if "avg_temp_summer" ∈ df.cols then
        nmul (moderateTempScore (r.get "avg_temp_summer")) (some (3/20))
      else some 0 := by
  have h1 : stepActivity df emptyPrefs r (some 0) = some 0 := by
    simp [stepActivity, emptyPrefs]
  have h2 : stepBudget emptyPrefs r (some 0) = some 0 := by
    simp [stepBudget, emptyPrefs]
  by_cases hc : "avg_temp_summer" ∈ df.cols
  · have h3 : stepTemp df emptyPrefs r (some 0)
        = nmul (moderateTempScore (r.get "avg_temp_summer")) (some (3/20)) := by
      simp only [stepTemp, emptyPrefs]
      rw [if_pos ⟨Or.inr (Or.inl rfl), hc⟩]
      rw [if_neg (by simp), if_neg (by simp)]
      exact nadd_zero_left _
    rw [if_pos hc]
    show stepDuration df emptyPrefs r
      (stepThreshold df emptyPrefs r
        (stepSpecial df emptyPrefs r
          (stepTemp df emptyPrefs r
            (stepBudget emptyPrefs r
              (stepActivity df emptyPrefs r (some 0)))))) = _
    rw [h1, h2, h3]
    rw [show stepSpecial df emptyPrefs r
        (nmul (moderateTempScore (r.get "avg_temp_summer")) (some (3/20)))
        = nmul (moderateTempScore (r.get "avg_temp_summer")) (some (3/20)) by
      simp [stepSpecial, emptyPrefs]]
    rw [show stepThreshold df emptyPrefs r
        (nmul (moderateTempScore (r.get "avg_temp_summer")) (some (3/20)))
        = nmul (moderateTempScore (r.get "avg_temp_summer")) (some (3/20)) by
      simp [stepThreshold, emptyPrefs]]
    simp [stepDuration, emptyPrefs]
  · have h3 : stepTemp df emptyPrefs r (some 0) = some 0 := by
      simp only [stepTemp, emptyPrefs]
      rw [if_neg (by
        intro hand
        exact hc hand.2)]
    rw [if_neg hc]
    show stepDuration df emptyPrefs r
      (stepThreshold df emptyPrefs r
        (stepSpecial df emptyPrefs r
          (stepTemp df emptyPrefs r
            (stepBudget emptyPrefs r
              (stepActivity df emptyPrefs r (some 0)))))) = _
    rw [h1, h2, h3]
    rw [show stepSpecial df emptyPrefs r (some 0) = some 0 by simp [stepSpecial, emptyPrefs]]
    rw [show stepThreshold df emptyPrefs r (some 0) = some 0 by
      simp [stepThreshold, emptyPrefs]]
    simp [stepDuration, emptyPrefs]

/-! C1: the weighted preference score. -/

/-- Paris: culture 100 (the dataset maximum), budget tier 3 (Luxury),
summer temperature 20. -/
def parisRow : Row := ⟨"Paris", "France", "Western Europe",
  [("culture", 100), ("budget_numeric", 3), ("avg_temp_summer", 20)]⟩

def romeRow : Row := ⟨"Rome", "Italy", "Southern Europe",
  [("culture", 50), ("budget_numeric", 2), ("avg_temp_summer", 25)]⟩

def dfC1 : DataFrame :=
  ⟨["city", "country", "region", "culture", "budget_numeric", "avg_temp_summer"],
   [parisRow, romeRow]⟩

/-- The preference record of the claim example. -/
def prefsC1 : Preferences :=
  { selected_activities := ["culture"], budget_level := some "Luxury",
    activity_threshold := 0 }

/-- C1 counterexample: on a dataset carrying an avg_temp_summer column,
the example preferences give Paris the score 2/5 + 1/5 + 3/20 x 11/12 =
59/80, not the 0.6 the claim states, because the temperature term fires
even though no temperature preference is present. -/
theorem c1_counterexample :
    rowScore dfC1 prefsC1 parisRow = some (59/80) ∧ (59 : Rat)/80 ≠ 3/5 := by
  refine ⟨?_, by norm_num⟩
  show stepDuration dfC1 prefsC1 parisRow
    (stepThreshold dfC1 prefsC1 parisRow
      (stepSpecial dfC1 prefsC1 parisRow
        (stepTemp dfC1 prefsC1 parisRow
          (stepBudget prefsC1 parisRow
            (stepActivity dfC1 prefsC1 parisRow (some 0)))))) = some (59/80)
  rw [show stepActivity dfC1 prefsC1 parisRow (some 0) = some (2/5) by
      simp [stepActivity, activityCols, rowActivityMean, pdMean, pdMax, someValues,
        Row.get, lookupCell, dfC1, parisRow, romeRow, prefsC1, ndiv, nadd, nmul, nf2]
      norm_num]
  rw [show stepBudget prefsC1 parisRow (some (2/5)) = some (3/5) by
      simp [stepBudget, budgetMapping, Row.get, lookupCell, parisRow, prefsC1, nadd, nf2]
      norm_num]
  rw [show stepTemp dfC1 prefsC1 parisRow (some (3/5)) = some (59/80) by
      simp [stepTemp, moderateTempScore, pdMin, pdMax, someValues, Row.get, lookupCell,
        dfC1, parisRow, romeRow, prefsC1, nclip01, nadd, nsub, nmul, ndiv, nabs, nf2]
      rw [show |(20 : Rat) - 45/2| = 5/2 by rw [abs_of_nonpos (by norm_num)]; norm_num]
      norm_num [min_def, max_def]]
  rw [show stepSpecial dfC1 prefsC1 parisRow (some (59/80)) = some (59/80) by
      simp [stepSpecial, prefsC1]]
  rw [show stepThreshold dfC1 prefsC1 parisRow (some (59/80)) = some (59/80) by
      simp [stepThreshold, prefsC1]]
  simp [stepDuration, prefsC1]

/-- C1 amended: each term carries its stated weight (activity 0.4 with
max-normalization, budget 0.2 with the exact/adjacent rule, temperature
0.15, special filters 0.15, duration 0.1), but the temperature term is
governed by a preference that defaults to moderate, so it is skipped only
when the dataset lacks an avg_temp_summer column; over such a dataset the
example preferences give a city with the maximal culture score 100 and
budget tier 3 exactly 0.4 + 0.2 = 0.6. -/
theorem c1_example_score (df : DataFrame) (r : Row)
    (hcult : "culture" ∈ df.cols)
    (hnotemp : "avg_temp_summer" ∉ df.cols)
    (hrmem : r ∈ df.rows)
    (hr : r.get "culture" = some 100)
    (hub : ∀ r' ∈ df.rows, (r'.get "culture").getD 0 ≤ 100)
    (hbudget : r.get "budget_numeric" = some 3) :
    rowScore df prefsC1 r = some (3/5) := by
  have hac : activityCols df ["culture"] = ["culture"] := by
    simp [activityCols, hcult]
  have hmeans : (fun r' => rowActivityMean r' ["culture"]) = fun r' => r'.get "culture" := by
    funext r'
    rw [rowActivityMean, List.map_cons, List.map_nil, pdMean_singleton]
  have hmax : pdMax (df.rows.map (fun r' => rowActivityMean r' ["culture"])) = some 100 := by
    rw [hmeans]
    refine pdMax_eq _ 100 ?_ ?_
    · exact List.mem_map.2 ⟨r, hrmem, hr⟩
    · intro x hx
      obtain ⟨r', hr', hrx⟩ := List.mem_map.1 hx
      rw [← hrx]
      exact hub r' hr'
  have hram : rowActivityMean r ["culture"] = some 100 := by
    rw [rowActivityMean, List.map_cons, List.map_nil, pdMean_singleton, hr]
  have h1 : stepActivity df prefsC1 r (some 0) = some (2/5) := by
    simp only [stepActivity, prefsC1, hac, hmax, hram]
    norm_num [ndiv, nmul, nadd, nf2]
  have h2 : stepBudget prefsC1 r (some (2/5)) = some (3/5) := by
    simp only [stepBudget, prefsC1, hbudget]
    simp [budgetMapping, nadd, nf2]
    norm_num
  have h3 : stepTemp df prefsC1 r (some (3/5)) = some (3/5) := by
    simp only [stepTemp, prefsC1]
    rw [if_neg (fun hand => hnotemp hand.2)]
  show stepDuration df prefsC1 r
    (stepThreshold df prefsC1 r
      (stepSpecial df prefsC1 r
        (stepTemp df prefsC1 r
          (stepBudget prefsC1 r
            (stepActivity df prefsC1 r (some 0)))))) = some (3/5)
  rw [h1, h2, h3]
  rw [show stepSpecial df prefsC1 r (some (3/5)) = some (3/5) by simp [stepSpecial, prefsC1]]
  rw [show stepThreshold df prefsC1 r (some (3/5)) = some (3/5) by
    simp [stepThreshold, prefsC1]]
  simp [stepDuration, prefsC1]

/-- A dataset without an avg_temp_summer column for the C1 witness. -/
def dfC1w : DataFrame :=
  ⟨["city", "country", "region", "culture", "budget_numeric"],
   [⟨"Paris", "France", "Western Europe", [("culture", 100), ("budget_numeric", 3)]⟩,
    ⟨"Rome", "Italy", "Southern Europe", [("culture", 50), ("budget_numeric", 1)]⟩]⟩

/-- C1 witness: over the temperature-free dataset the example scores
exactly 3/5. -/
theorem c1_example_score_witness :
    rowScore dfC1w prefsC1
      ⟨"Paris", "France", "Western Europe", [("culture", 100), ("budget_numeric", 3)]⟩
      = some (3/5) := by
  refine c1_example_score dfC1w _ (by decide) (by decide) (by decide) (by decide) ?_
    (by decide)
  decide

/-! C2: the hybrid orchestration. -/

/-- C2: hybrid mode scores 2 x top_n preference candidates; with a target
city it left-joins similarity by city name (missing matches filled with
0), ranks by 0.6 x recommendation + 0.4 x similarity and truncates to
top_n; without a target city it returns exactly the preferences-mode
result. -/
theorem c2_hybrid_orchestration (df : DataFrame) (sel : Selections) (n : Nat) :
    (truthy sel.target_city = false →
      getPersonalizedRecommendations df sel "hybrid" n
        = getPersonalizedRecommendations df sel "preferences" n) ∧
    (∀ t, sel.target_city = some t → t ≠ "" →
      getPersonalizedRecommendations df sel "hybrid" n =
        (recommendCitiesByPreferences df (prefsOfSelections sel) (2 * n)).map
          (fun pref =>
            if pref = [] then .table (pref.take n)
            else .hybridTable ((sortByHybridDesc
              ((leftJoinSim pref (calculateCitySimilarity df t
                (some sel.selected_activities))).map
                (fun x => (x.1, x.2.1, x.2.2, hybridScore x.2.1 x.2.2)))).take n))) := by
  constructor
  · intro htc
    unfold getPersonalizedRecommendations
    rw [if_neg (by decide), if_neg (by decide), if_pos rfl, if_pos rfl]
    unfold recommendCitiesByPreferences
    by_cases hg : (prefsOfSelections sel).budget_level.isSome = true
        ∧ "budget_numeric" ∉ df.cols
    · rw [if_pos hg, if_pos hg]
      rfl
    · rw [if_neg hg, if_neg hg]
      simp only [htc, Bool.false_eq_true, false_and, if_false]
      simp only [Except.map]
      rw [List.take_take, min_eq_left (by omega)]
  · intro t ht ht'
    unfold getPersonalizedRecommendations
    rw [if_neg (by decide), if_neg (by decide), if_pos rfl]
    have htr : truthy sel.target_city = true := by
      rw [ht]
      simp [truthy, ht']
    rcases hrec : recommendCitiesByPreferences df (prefsOfSelections sel) (2 * n) with e | pref
    · rfl
    · dsimp only [Except.map]
      by_cases hp : pref = []
      · rw [if_neg (by
          intro hand
          exact hand.2 hp)]
        rw [if_pos hp]
      · rw [if_pos ⟨htr, hp⟩, if_neg hp]
        rw [ht]
        rfl

/-- The empty selection record of the C2 witness (no target city). -/
def selC2 : Selections := {}

/-- C2 witness: on a concrete table, hybrid mode without a target city
returns exactly the preferences-mode result. -/
theorem c2_hybrid_orchestration_witness :
    truthy selC2.target_city = false ∧
    getPersonalizedRecommendations dfTwo selC2 "hybrid" 1
      = getPersonalizedRecommendations dfTwo selC2 "preferences" 1 :=
  ⟨rfl, (c2_hybrid_orchestration dfTwo selC2 1).1 rfl⟩

/-! C10: the similarity engine receives the selected_activities list, not
the unset marker. -/

/-- C10: in similarity and hybrid modes the orchestrator passes the
user's selected_activities list to calculate_city_similarity, so an empty
list bypasses the nine-activity default and the similarity is the cosine
over only budget_numeric, avg_temp_summer and avg_temp_winter (those
present). -/
theorem c10_activity_cols_passthrough (df : DataFrame) (sel : Selections) (n : Nat)
    (t : String) (ht : sel.target_city = some t) (ht' : t ≠ "")
    (hsa : sel.selected_activities = []) :
    simFeatureCols df (some sel.selected_activities)
      = ["budget_numeric", "avg_temp_summer", "avg_temp_winter"].filter (· ∈ df.cols) ∧
    getPersonalizedRecommendations df sel "similarity" n
      = .ok (.simTable ((calculateCitySimilarity df t
          (some sel.selected_activities)).take n)) ∧
    (∀ pref, recommendCitiesByPreferences df (prefsOfSelections sel) (2 * n) = .ok pref →
      pref ≠ [] →
      getPersonalizedRecommendations df sel "hybrid" n =
        .ok (.hybridTable ((sortByHybridDesc
          ((leftJoinSim pref (calculateCitySimilarity df t
            (some sel.selected_activities))).map
            (fun x => (x.1, x.2.1, x.2.2, hybridScore x.2.1 x.2.2)))).take n))) ∧
    (∀ ref, df.rows.find? (fun r => r.city = t) = some ref →
      ∀ x ∈ calculateCitySimilarity df t (some sel.selected_activities),
        x.2 = cosineSim
          (rowVec ref (["budget_numeric", "avg_temp_summer",
            "avg_temp_winter"].filter (· ∈ df.cols)))
          (rowVec x.1 (["budget_numeric", "avg_temp_summer",
            "avg_temp_winter"].filter (· ∈ df.cols)))) := by
  have hcols : simFeatureCols df (some sel.selected_activities)
      = ["budget_numeric", "avg_temp_summer", "avg_temp_winter"].filter (· ∈ df.cols) := by
    rw [simFeatureCols, hsa]
    rfl
  have htr : truthy sel.target_city = true := by
    rw [ht]
    simp [truthy, ht']
  refine ⟨hcols, ?_, ?_, ?_⟩
  · unfold getPersonalizedRecommendations
    rw [if_neg (by decide), if_pos rfl, if_pos htr, ht]
    rfl
  · intro pref hpref hne
    unfold getPersonalizedRecommendations
    rw [if_neg (by decide), if_neg (by decide), if_pos rfl, hpref]
    dsimp only
    rw [if_pos ⟨htr, hne⟩, ht]
    rfl
  · intro ref href x hx
    rw [calculateCitySimilarity, href] at hx
    have hx2 := (List.mem_insertionSort simDescRel).1 hx
    rw [List.mem_filter] at hx2
    obtain ⟨hx3, -⟩ := hx2
    obtain ⟨r, hr, hrx⟩ := List.mem_map.1 hx3
    rw [← hrx]
    rw [hcols]

/-- The selection record of the C10 witness: a target city, no selected
activities. -/
def selC10 : Selections := { target_city := some "A" }

/-- C10 witness: the empty activity list reduces the similarity features
to the three non-activity columns present in the table. -/
theorem c10_activity_cols_passthrough_witness :
    simFeatureCols dfTwo (some selC10.selected_activities)
      = ["budget_numeric", "avg_temp_summer", "avg_temp_winter"].filter (· ∈ dfTwo.cols) ∧
    getPersonalizedRecommendations dfTwo selC10 "similarity" 1
      = .ok (.simTable ((calculateCitySimilarity dfTwo "A"
          (some selC10.selected_activities)).take 1)) := by
  obtain ⟨h1, h2, -, -⟩ :=
    c10_activity_cols_passthrough dfTwo selC10 1 "A" rfl (by decide) rfl
  exact ⟨h1, h2⟩

/-! C3: the similarity engine. -/

theorem dotQ_nil (v : List Rat) : dotQ [] v = 0 := rfl

theorem dotQ_self_nonneg : ∀ u : List Rat, 0 ≤ dotQ u u := by
  intro u
  induction u with
  | nil => exact le_refl 0
  | cons a u ih =>
    show 0 ≤ (a * a + (List.zipWith (· * ·) u u).sum)
    have := mul_self_nonneg a
    show (0 : Rat) ≤ a * a + dotQ u u
    nlinarith [ih]

/-- Cauchy-Schwarz for the list dot product. -/
theorem dotQ_sq_le : ∀ (u v : List Rat), dotQ u v * dotQ u v ≤ dotQ u u * dotQ v v := by
  intro u
  induction u with
  | nil =>
    intro v
    simp [dotQ_nil]
  | cons a u ih =>
    intro v
    cases v with
    | nil =>
      show dotQ (a :: u) [] * dotQ (a :: u) [] ≤ dotQ (a :: u) (a :: u) * dotQ [] []
      have h1 : dotQ (a :: u) [] = 0 := rfl
      have h2 : dotQ [] [] = (0 : Rat) := rfl
      rw [h1, h2, mul_zero, mul_zero]
    | cons b v =>
      have h1 : dotQ (a :: u) (b :: v) = a * b + dotQ u v := rfl
      have h2 : dotQ (a :: u) (a :: u) = a * a + dotQ u u := rfl
      have h3 : dotQ (b :: v) (b :: v) = b * b + dotQ v v := rfl
      rw [h1, h2, h3]
      have hU := dotQ_self_nonneg u
      have hV := dotQ_self_nonneg v
      have hIH := ih v
      rcases eq_or_lt_of_le hU with hU0 | hU0
      · have hd0 : dotQ u v * dotQ u v ≤ 0 := by nlinarith [hIH]
        have hd : dotQ u v = 0 :=
          mul_self_eq_zero.1 (le_antisymm hd0 (mul_self_nonneg _))
        rw [hd, ← hU0]
        nlinarith [mul_nonneg (mul_self_nonneg a) hV]
      · nlinarith [sq_nonneg (a * dotQ u v - b * dotQ u u),
          mul_nonneg (add_nonneg (mul_self_nonneg a) hU) (sub_nonneg.2 hIH), hU0]

/-- Cosine similarity always lies in [-1, 1]. -/
theorem cosineSim_bounds (u v : List Rat) : -1 ≤ cosineSim u v ∧ cosineSim u v ≤ 1 := by
  unfold cosineSim
  split_ifs with h
  · norm_num
  · push_neg at h
    have hU : (0 : Rat) < dotQ u u := lt_of_le_of_ne (dotQ_self_nonneg u) (Ne.symm h.1)
    have hV : (0 : Rat) < dotQ v v := lt_of_le_of_ne (dotQ_self_nonneg v) (Ne.symm h.2)
    have hUr : (0 : ℝ) < ((dotQ u u : Rat) : ℝ) := by exact_mod_cast hU
    have hVr : (0 : ℝ) < ((dotQ v v : Rat) : ℝ) := by exact_mod_cast hV
    have hs : (0 : ℝ) < Real.sqrt ((dotQ u u : Rat) : ℝ) * Real.sqrt ((dotQ v v : Rat) : ℝ) :=
      mul_pos (Real.sqrt_pos.2 hUr) (Real.sqrt_pos.2 hVr)
    have hcs : (((dotQ u v : Rat) : ℝ)) ^ 2
        ≤ ((dotQ u u : Rat) : ℝ) * ((dotQ v v : Rat) : ℝ) := by
      have := dotQ_sq_le u v
      have hq : (dotQ u v * dotQ u v : Rat) ≤ dotQ u u * dotQ v v := this
      rw [sq]
      exact_mod_cast hq
    have habs : |((dotQ u v : Rat) : ℝ)|
        ≤ Real.sqrt ((dotQ u u : Rat) : ℝ) * Real.sqrt ((dotQ v v : Rat) : ℝ) := by
      rw [← Real.sqrt_sq_eq_abs, ← Real.sqrt_mul (le_of_lt hUr)]
      exact Real.sqrt_le_sqrt hcs
    have hq : |((dotQ u v : Rat) : ℝ) /
        (Real.sqrt ((dotQ u u : Rat) : ℝ) * Real.sqrt ((dotQ v v : Rat) : ℝ))| ≤ 1 := by
      rw [abs_div, abs_of_pos hs]
      exact div_le_one_of_le₀ habs (le_of_lt hs)
    exact abs_le.1 hq

/-- C3: calculate_city_similarity returns an empty result (without
raising) when no row carries the reference city name; otherwise its rows
are exactly the rows whose city differs from the reference, sorted by
descending cosine similarity, every score lying in [-1, 1]. -/
theorem c3_similarity_engine (df : DataFrame) (ref : String)
    (acols : Option (List String)) :
    ((∀ r ∈ df.rows, r.city ≠ ref) → calculateCitySimilarity df ref acols = []) ∧
    ((∃ r ∈ df.rows, r.city = ref) →
      ((calculateCitySimilarity df ref acols).map Prod.fst).Perm
        (df.rows.filter (fun r => r.city ≠ ref))) ∧
    List.Sorted simDescRel (calculateCitySimilarity df ref acols) ∧
    (∀ x ∈ calculateCitySimilarity df ref acols, -1 ≤ x.2 ∧ x.2 ≤ 1) := by
  refine ⟨?_, ?_, ?_, ?_⟩
  · intro h
    rw [calculateCitySimilarity]
    have hnone : df.rows.find? (fun r => r.city = ref) = none := by
      rw [List.find?_eq_none]
      intro r hr
      simp [h r hr]
    rw [hnone]
  · intro ⟨r0, hr0, hcity⟩
    cases hfind : df.rows.find? (fun r => r.city = ref) with
    | none =>
      rw [List.find?_eq_none] at hfind
      exact absurd (by simp [hcity]) (hfind r0 hr0)
    | some refRow =>
      rw [calculateCitySimilarity, hfind]
      refine ((List.perm_insertionSort simDescRel _).map Prod.fst).trans ?_
      rw [List.filter_map]
      rw [List.map_map]
      have hfst : (Prod.fst ∘ fun r : Row =>
          (r, cosineSim (rowVec refRow (simFeatureCols df acols))
            (rowVec r (simFeatureCols df acols)))) = id := rfl
      rw [hfst, List.map_id]
      exact List.Perm.refl _
  · cases hfind : df.rows.find? (fun r => r.city = ref) with
    | none =>
      rw [calculateCitySimilarity, hfind]
      exact List.sorted_nil
    | some refRow =>
      rw [calculateCitySimilarity, hfind]
      exact List.sorted_insertionSort simDescRel _
  · intro x hx
    cases hfind : df.rows.find? (fun r => r.city = ref) with
    | none =>
      rw [calculateCitySimilarity, hfind] at hx
      simp at hx
    | some refRow =>
      rw [calculateCitySimilarity, hfind] at hx
      have hx2 := (List.mem_insertionSort simDescRel).1 hx
      rw [List.mem_filter] at hx2
      obtain ⟨r, hr, hrx⟩ := List.mem_map.1 hx2.1
      rw [← hrx]
      exact cosineSim_bounds _ _

/-- C3 witness: a missing reference city yields the empty result. -/
theorem c3_similarity_engine_witness :
    (∀ r ∈ dfTwo.rows, r.city ≠ "Atlantis") ∧
    calculateCitySimilarity dfTwo "Atlantis" none = [] :=
  ⟨by decide, (c3_similarity_engine dfTwo "Atlantis" none).1 (by decide)⟩

end Travel

